import Mathlib

/-!
Verification development for `converter.py`, a TXT-to-CWB corpus converter.

Strings are modelled as `List Char`; the Python string primitives used by the
source (`rstrip`, `split`, `join`, `replace`, slicing) are embedded below, and
each source function is translated over that model.  The external spacy
pipeline is modelled as an abstract `Pipeline` collaborator.
-/

/-- Strings of the Python program, modelled as lists of characters. -/
abbrev Str := List Char

/-- Converts a Lean string literal to the character-list model. -/
def sOf (s : String) : Str := s.data

/-- Characters stripped by Python `str.rstrip()` with no argument
(ASCII whitespace; the Unicode cases never arise in the claims). -/
def isPySpace (c : Char) : Bool :=
  c == ' ' || c == '\t' || c == '\n' || c == '\r' || c == '\x0b' || c == '\x0c'

/-- Python `s.rstrip()`: remove trailing whitespace characters. -/
def pyRstrip (s : Str) : Str :=
  (s.reverse.dropWhile isPySpace).reverse

/-- Python `sep.join(xs)` for a one-character separator. -/
def pyJoin (sep : Char) : List Str → Str
  | [] => []
  | [x] => x
  | x :: y :: xs => x ++ sep :: pyJoin sep (y :: xs)

/-- Python `' '.join(xs)`, as used in `create_document` (line 34). -/
def joinSpace (xs : List Str) : Str := pyJoin ' ' xs

/-- Python `s.split(sep)` for a one-character separator: keeps empty pieces,
and `"".split(sep)` is `[""]`. -/
def pySplit (sep : Char) : Str → List Str
  | [] => [[]]
  | c :: rest =>
    let r := pySplit sep rest
    if c = sep then [] :: r
    else (c :: r.headD []) :: r.tail

/-- Python `s.replace(old, new)` for a one-character `old`, as used at
lines 75 (`tag.replace('<', '</')`) and 86 (`.replace('-', '_')`). -/
def pyReplace1 (s : Str) (old : Char) (new : Str) : Str :=
  s.flatMap (fun c => if c = old then new else [c])

/-- The `Document` namedtuple of `converter.py` line 33: a header line and a
space-joined body. -/
structure Document where
  header : Str
  body : Str
deriving DecidableEq

/-- Source `create_document` (lines 28-37): `header` is `lines[0]`, `body` is
`' '.join(lines[1:])`.  The empty-list case would raise `IndexError` in
Python; it is unreachable from `create_document_list`, whose buffer always
holds the boundary line itself at flush time. -/
def create_document : List Str → Document
  | [] => ⟨[], []⟩
  | h :: t => ⟨h, joinSpace t⟩

/-- One iteration of the loop body of `create_document_list` (lines 48-54):
append the right-stripped line to the buffer, and flush the buffer into a
`Document` when the line is `"\n"` or compares equal to `lines_of_file[-1]`.
Note the source compares the line against the LAST LINE'S VALUE, not its
position. -/
def cdlStep (last : Str) (st : List Str × List Document) (line : Str) :
    List Str × List Document :=
  let document := st.1 ++ [pyRstrip line]
  if line = ['\n'] ∨ line = last then ([], st.2 ++ [create_document document])
  else (document, st.2)

/-- Source `create_document_list` (lines 40-56): fold the loop body over all
lines; `lines_of_file[-1]` is modelled by `getLastD` (never hit on the empty
list, where the loop does not run). -/
def create_document_list (lines_of_file : List Str) : List Document :=
  (lines_of_file.foldl (cdlStep (lines_of_file.getLastD [])) ([], [])).2

/-- Recursive presentation of the loop of `create_document_list`, used to
reason about the fold. -/
def cdlGo (last : Str) (buf : List Str) : List Str → List Document
  | [] => []
  | l :: rest =>
    if l = ['\n'] ∨ l = last then
      create_document (buf ++ [pyRstrip l]) :: cdlGo last [] rest
    else cdlGo last (buf ++ [pyRstrip l]) rest

/-- Modelled from the spec: the claim's boundary rule, in which a document
boundary is triggered at a line precisely when that line is the blank line
`"\n"` or it occupies the LAST POSITION of the file.  Written for comparison
with `create_document_list`, which instead compares line values against the
last line's value. -/
def specFlushGo (buf : List Str) : List Str → List Document
  | [] => []
  | [l] => [create_document (buf ++ [pyRstrip l])]
  | l :: l2 :: rest =>
    if l = ['\n'] then
      create_document (buf ++ [pyRstrip l]) :: specFlushGo [] (l2 :: rest)
    else specFlushGo (buf ++ [pyRstrip l]) (l2 :: rest)

/-- Modelled from the spec: the segmenter as the claims describe it
(blank-line or last-position boundaries). -/
def claimCreateDocumentList (lines : List Str) : List Document :=
  specFlushGo [] lines

/-- One token of the external spacy pipeline, with the attributes the source
reads at lines 71-73: `token.text`, `token.pos_`, `token.lemma_`. -/
structure Token where
  text : Str
  pos_ : Str
  lemma_ : Str
deriving DecidableEq

/-- One sentence span of a spacy `Doc` (`doc.sents`): its text and its own
first-pass token objects.  `print_cwb` only ever reads `text`. -/
structure Sent where
  text : Str
  toks : List Token
deriving DecidableEq

/-- An analysed spacy `Doc`: iterating it yields `toks`; `doc.sents` yields
the sentence spans. -/
structure Doc where
  toks : List Token
  sents : List Sent
deriving DecidableEq

/-- The external NLP collaborator (the module-level `NLP` object of line 9),
modelled as an abstract function from text to an analysed document. -/
structure Pipeline where
  nlp : Str → Doc

/-- One token line of the CWB output, from the format string at lines 70-73:
surface form, part-of-speech tag and lemma joined by tabs. -/
def formatToken (t : Token) : Str :=
  t.text ++ '\t' :: t.pos_ ++ '\t' :: t.lemma_

/-- Source `print_cwb` (lines 59-75), with the printed lines collected in
order: for each sentence of `NLP(document)`, print the open tag, then one
line per token of the SECOND pipeline pass `NLP(sentence.text)`, then the
close tag `tag.replace('<', '</')`.  The source's default argument is
`tag='<s>'`; callers here always pass the tag explicitly. -/
def print_cwb (P : Pipeline) (document : Str) (tag : Str) : List Str :=
  (P.nlp document).sents.flatMap (fun sentence =>
    tag :: ((P.nlp sentence.text).toks.map formatToken
      ++ [pyReplace1 tag '<' (sOf "</")]))

/-- Modelled from the spec: the single-pass variant the claim rules out, in
which the emitter reuses each sentence's own first-pass token objects
instead of re-running the pipeline on the sentence text.  Written for
comparison with `print_cwb`. -/
def specPrintCwbReuse (P : Pipeline) (document : Str) (tag : Str) : List Str :=
  (P.nlp document).sents.flatMap (fun sentence =>
    tag :: (sentence.toks.map formatToken ++ [pyReplace1 tag '<' (sOf "</")]))

/-- Source `print_header` (lines 78-94).  The returned `Option` models the
possible `IndexError`: `date_list[1]` and `date_list[2]` raise when the
split of the first 10 characters yields fewer than three parts.
`date_list[0]` cannot raise because Python `split` never returns an empty
list (`pySplit_ne_nil` below), so it is modelled with `headD`. -/
def print_header (filename : Str) : Option Str := do
  let date_list := pySplit '_' (List.take 10 filename)
  let name := sOf "id=\"" ++ pyReplace1 (List.take (filename.length - 4) filename) '-' ['_'] ++ ['"']
  let date := sOf "date=\"" ++ pyJoin '_' date_list ++ ['"']
  let year := sOf "year=\"" ++ date_list.headD [] ++ ['"']
  let m ← date_list.get? 1
  let d ← date_list.get? 2
  let month := sOf "month=\"" ++ m ++ ['"']
  let day := sOf "day=\"" ++ d ++ ['"']
  pure (sOf "<text " ++ name ++ ' ' :: date ++ ' ' :: year ++ ' ' :: month
    ++ ' ' :: day ++ ['>'])

/-- Source `print_footer` (lines 96-100). -/
def print_footer : Str := sOf "</text>"

/-- Outcome of the read phase of `main` (the try/except/finally of lines
112-125). -/
inductive ReadOutcome where
  /-- The lines were decoded (by UTF-8, or by the cp1252 fallback). -/
  | ok : List Str → ReadOutcome
  /-- The dead branch at lines 120-122: print a diagnostic to stderr and
  `sys.exit(1)`.  No execution reaches it. -/
  | diag : ReadOutcome
  /-- An uncaught exception ends the process with a traceback (interpreter
  exit code 1) and no `Could not convert` diagnostic. -/
  | uncaught : ReadOutcome
deriving DecidableEq

/-- The read phase of `main` (lines 112-125), as a function of whether each
decoder accepts the file.  When UTF-8 fails, the handler at lines 116-119
retries with cp1252; a `UnicodeDecodeError` raised INSIDE that handler is
not caught by the sibling `except` clause (lines 120-122), and the
`finally` block then raises `NameError` on the unbound `lines`
(line 125) — so the diagnostic branch is unreachable and a doubly
undecodable file dies with an uncaught exception. -/
def mainReadPhase (utf8 cp1252 : Option (List Str)) : ReadOutcome :=
  match utf8 with
  | some l => ReadOutcome.ok l
  | none =>
    match cp1252 with
    | some l => ReadOutcome.ok l
    | none => ReadOutcome.uncaught

/-- Whether the read phase printed the `Could not convert file` diagnostic of
line 121. -/
def printsDiag : ReadOutcome → Bool
  | ReadOutcome.diag => true
  | _ => false

/-- Process exit code determined by the read phase: 0 when decoding succeeded
(and emission later completes), 1 for `sys.exit(1)` and likewise 1 for an
uncaught exception (CPython's exit code for a traceback). -/
def readExit : ReadOutcome → Nat
  | ReadOutcome.ok _ => 0
  | ReadOutcome.diag => 1
  | ReadOutcome.uncaught => 1

/-- Source `filename = args.input.split('/')[-1]` (line 110); Python `split`
never returns an empty list, so `[-1]` is modelled with `getLastD`. -/
def filenameOf (input : Str) : Str := (pySplit '/' input).getLastD []

/-- The per-document emission of the loop at lines 127-131: for each
document in order, the header tag, the annotated header under `<h1>`, the
annotated body under `<s>`, and the footer.  `none` models an `IndexError`
escaping from `print_header`; since `print_header` depends only on the
filename, such a failure occurs on the first document before anything is
printed. -/
def emitDocs (P : Pipeline) (filename : Str) : List Document → Option (List Str)
  | [] => some []
  | doc :: rest => do
    let header ← print_header filename
    let tail ← emitDocs P filename rest
    pure (header :: (print_cwb P doc.header (sOf "<h1>")
      ++ print_cwb P doc.body (sOf "<s>") ++ [print_footer]) ++ tail)

/-- The emission phase applied to the segmenter's output. -/
def emitDocuments (P : Pipeline) (filename : Str) (lines : List Str) :
    Option (List Str) :=
  emitDocs P filename (create_document_list lines)

/-- The standard-output stream of `main` (lines 103-131) as a function of the
input path, the two decoding results and the pipeline.  Crash paths print
nothing to stdout (the diagnostic of line 121 would go to stderr, and an
`IndexError` from `print_header` fires before the first document is
printed), hence the `getD []`. -/
def mainStdout (P : Pipeline) (input : Str) (utf8 cp1252 : Option (List Str)) :
    List Str :=
  match mainReadPhase utf8 cp1252 with
  | ReadOutcome.ok lines => (emitDocuments P (filenameOf input) lines).getD []
  | _ => []

/-- File-handle events of `main`'s read phase, for the resource-discipline
claim: `openF n` numbers the handles in order of opening. -/
inductive FileEv where
  | openF : Nat → FileEv
  | closeF : Nat → FileEv
  | segmentEv : FileEv
deriving DecidableEq

/-- Whether an event is a close. -/
def isCloseEv : FileEv → Bool
  | FileEv.closeF _ => true
  | _ => false

/-- Checks that no close event occurs after a segmentation event, i.e. every
handle that is closed at all is closed before segmentation begins. -/
def noCloseAfterSeg : List FileEv → Bool
  | [] => true
  | FileEv.segmentEv :: rest => !(rest.any isCloseEv) && noCloseAfterSeg rest
  | _ :: rest => noCloseAfterSeg rest

/-- Handle trace of the read phase of `main` (lines 112-125).  On the primary
path, the single handle (0) is opened (line 114), closed in `finally`
(line 124), then segmentation runs (line 125).  When UTF-8 decoding fails,
the handler at line 118 rebinds `input_doc` to a NEW handle (1) WITHOUT
closing handle 0; `finally` closes only handle 1.  When cp1252 also fails,
the `finally` close of handle 1 still runs but segmentation never starts
(the `NameError` on `lines` preempts it). -/
def mainTrace (utf8Ok cp1252Ok : Bool) : List FileEv :=
  if utf8Ok then [FileEv.openF 0, FileEv.closeF 0, FileEv.segmentEv]
  else [FileEv.openF 0, FileEv.openF 1, FileEv.closeF 1]
    ++ (if cp1252Ok then [FileEv.segmentEv] else [])

/-- Tokens a small deterministic stand-in pipeline assigns to
`"Headline Text"` on a full analysis pass. -/
def demoHeadlineToks : List Token :=
  [⟨sOf "Headline", sOf "PROPN", sOf "Headline"⟩,
   ⟨sOf "Text", sOf "PROPN", sOf "Text"⟩]

/-- Tokens the stand-in pipeline assigns to `"Body line one."`. -/
def demoBodyOneToks : List Token :=
  [⟨sOf "Body", sOf "NOUN", sOf "body"⟩,
   ⟨sOf "line", sOf "NOUN", sOf "line"⟩,
   ⟨sOf "one", sOf "NUM", sOf "one"⟩,
   ⟨sOf ".", sOf "PUNCT", sOf "."⟩]

/-- Tokens the stand-in pipeline assigns to `"Body line two."`. -/
def demoBodyTwoToks : List Token :=
  [⟨sOf "Body", sOf "NOUN", sOf "body"⟩,
   ⟨sOf "line", sOf "NOUN", sOf "line"⟩,
   ⟨sOf "two", sOf "NUM", sOf "two"⟩,
   ⟨sOf ".", sOf "PUNCT", sOf "."⟩]

/-- A small deterministic stand-in for the external spacy pipeline, given by
a finite table.  Sentence spans deliberately carry first-pass token lists
that differ from the tokens of a fresh analysis of the same text (here:
empty), matching the fact that `print_cwb` never reads them. -/
def demoNlp (s : Str) : Doc :=
  if s = sOf "Headline Text" then
    ⟨demoHeadlineToks, [⟨sOf "Headline Text", []⟩]⟩
  else if s = sOf "Body line one. Body line two." then
    ⟨demoBodyOneToks ++ demoBodyTwoToks,
     [⟨sOf "Body line one.", []⟩, ⟨sOf "Body line two.", []⟩]⟩
  else if s = sOf "Body line one." then
    ⟨demoBodyOneToks, [⟨sOf "Body line one.", demoBodyOneToks⟩]⟩
  else if s = sOf "Body line two." then
    ⟨demoBodyTwoToks, [⟨sOf "Body line two.", demoBodyTwoToks⟩]⟩
  else ⟨[], []⟩

/-- The stand-in pipeline packaged as a `Pipeline`. -/
def demoPipeline : Pipeline := ⟨demoNlp⟩

/-- The lines of the spec's scenario file `2017_11_03_example-text.txt`, as
`readlines` returns them: a headline, a blank line, and a body line. -/
def exampleLines : List Str :=
  [sOf "Headline Text\n", sOf "\n", sOf "Body line one. Body line two.\n"]

/-- The open tag the scenario expects for `2017_11_03_example-text.txt`. -/
def exampleHeaderTag : Str :=
  sOf "<text id=\"2017_11_03_example_text\" date=\"2017_11_03\" year=\"2017\" month=\"11\" day=\"03\">"

/-! ### Helper lemmas about the Python string primitives -/

/-- Python `split` never returns an empty list. -/
theorem pySplit_ne_nil (sep : Char) (s : Str) : pySplit sep s ≠ [] := by
  cases s with
  | nil => simp [pySplit]
  | cons c rest =>
    simp only [pySplit]
    by_cases h : c = sep <;> simp [h]

/-- Splitting a string that does not contain the separator yields the string
itself as the only piece. -/
theorem pySplit_no_sep {sep : Char} : ∀ {s : Str}, sep ∉ s → pySplit sep s = [s] := by
  intro s
  induction s with
  | nil => intro _; rfl
  | cons c rest ih =>
    intro h
    have hc : ¬c = sep := fun hcs => h (hcs ▸ List.mem_cons_self c rest)
    have hr : sep ∉ rest := fun hm => h (List.mem_cons_of_mem c hm)
    simp [pySplit, hc, ih hr]

/-- Splitting peels off a separator-free piece before the first separator. -/
theorem pySplit_append_sep {sep : Char} :
    ∀ {s : Str} (t : Str), sep ∉ s →
      pySplit sep (s ++ sep :: t) = s :: pySplit sep t := by
  intro s
  induction s with
  | nil => intro t _; simp [pySplit]
  | cons c rest ih =>
    intro t h
    have hc : ¬c = sep := fun hcs => h (hcs ▸ List.mem_cons_self c rest)
    have hr : sep ∉ rest := fun hm => h (List.mem_cons_of_mem c hm)
    have := ih t hr
    simp [pySplit, hc, this]

/-- Replacement is the identity on strings not containing the old character. -/
theorem pyReplace1_of_not_mem {old : Char} {new : Str} :
    ∀ {s : Str}, old ∉ s → pyReplace1 s old new = s := by
  intro s
  induction s with
  | nil => intro _; rfl
  | cons c rest ih =>
    intro h
    have hc : ¬c = old := fun hcs => h (hcs ▸ List.mem_cons_self c rest)
    have hr : old ∉ rest := fun hm => h (List.mem_cons_of_mem c hm)
    simp [pyReplace1, hc] at ih ⊢
    exact ih hr

/-- Replacement distributes over concatenation. -/
theorem pyReplace1_append (s t : Str) (old : Char) (new : Str) :
    pyReplace1 (s ++ t) old new = pyReplace1 s old new ++ pyReplace1 t old new := by
  simp [pyReplace1]

/-- After replacing every occurrence of `old` by a string avoiding it, the
result does not contain `old`. -/
theorem not_mem_pyReplace1 {old : Char} {new : Str} (hn : old ∉ new) (s : Str) :
    old ∉ pyReplace1 s old new := by
  induction s with
  | nil => simp [pyReplace1]
  | cons c rest ih =>
    simp only [pyReplace1, List.flatMap_cons] at ih ⊢
    by_cases hc : c = old
    · simp only [hc, if_pos rfl]
      intro hmem
      rcases List.mem_append.mp hmem with h1 | h1
      · exact hn h1
      · exact ih h1
    · simp only [if_neg hc]
      intro hmem
      rcases List.mem_append.mp hmem with h1 | h1
      · have h2 : old = c := by simpa using h1
        exact hc h2.symm
      · exact ih h1

/-- A digit character is not an underscore. -/
theorem isDigit_ne_under {c : Char} (h : c.isDigit) : c ≠ '_' := by
  intro hc; subst hc; simp [Char.isDigit] at h

/-- A digit character is not a dash. -/
theorem isDigit_ne_dash {c : Char} (h : c.isDigit) : c ≠ '-' := by
  intro hc; subst hc; simp [Char.isDigit] at h

/-- A string of digits contains no underscore. -/
theorem under_not_mem_digits {s : Str} (h : ∀ c ∈ s, c.isDigit) : '_' ∉ s := by
  intro hm
  exact isDigit_ne_under (h '_' hm) rfl

/-- A string of digits contains no dash. -/
theorem dash_not_mem_digits {s : Str} (h : ∀ c ∈ s, c.isDigit) : '-' ∉ s := by
  intro hm
  exact isDigit_ne_dash (h '-' hm) rfl

/-- Appending a final piece to a nonempty join inserts one separator. -/
theorem pyJoin_append_last (sep : Char) :
    ∀ (mid : List Str) (r : Str), mid ≠ [] →
      pyJoin sep (mid ++ [r]) = pyJoin sep mid ++ sep :: r := by
  intro mid
  induction mid with
  | nil => intro r h; exact absurd rfl h
  | cons x xs ih =>
    intro r _
    cases xs with
    | nil => simp [pyJoin]
    | cons y ys =>
      have h2 := ih r (by simp)
      simp only [List.cons_append, pyJoin, List.append_eq] at h2 ⊢
      rw [h2]
      simp

/-- The head of the remainder of `dropWhile` falsifies the predicate. -/
theorem head?_dropWhile_false (p : Char → Bool) :
    ∀ (l : Str) (c : Char), (l.dropWhile p).head? = some c → p c = false := by
  intro l
  induction l with
  | nil => intro c h; simp [List.dropWhile] at h
  | cons a rest ih =>
    intro c h
    by_cases ha : p a
    · rw [List.dropWhile_cons_of_pos ha] at h
      exact ih c h
    · rw [List.dropWhile_cons_of_neg ha] at h
      simp at h
      subst h
      simpa using ha

/-- The last character of a right-stripped string is not whitespace. -/
theorem pyRstrip_getLast?_not_space {s : Str} {c : Char}
    (h : (pyRstrip s).getLast? = some c) : isPySpace c = false := by
  unfold pyRstrip at h
  rw [List.getLast?_reverse] at h
  exact head?_dropWhile_false isPySpace s.reverse c h

/-! ### Claim C1: document boundaries of the segmenter -/

/-- The fold of `create_document_list` agrees with the recursive loop
presentation `cdlGo`, for any accumulated state. -/
theorem cdl_foldl_eq_go (last : Str) :
    ∀ (ls : List Str) (buf : List Str) (docs : List Document),
      (ls.foldl (cdlStep last) (buf, docs)).2 = docs ++ cdlGo last buf ls := by
  intro ls
  induction ls with
  | nil => intro buf docs; simp [cdlGo]
  | cons l rest ih =>
    intro buf docs
    by_cases h : l = ['\n'] ∨ l = last
    · rw [List.foldl_cons]
      have hstep : cdlStep last (buf, docs) l
          = ([], docs ++ [create_document (buf ++ [pyRstrip l])]) := by
        simp [cdlStep, h]
      rw [hstep, ih]
      simp [cdlGo, h]
    · rw [List.foldl_cons]
      have hstep : cdlStep last (buf, docs) l = (buf ++ [pyRstrip l], docs) := by
        simp [cdlStep, h]
      rw [hstep, ih]
      simp [cdlGo, h]

/-- `create_document_list` in recursive form. -/
theorem create_document_list_eq_cdlGo (ls : List Str) :
    create_document_list ls = cdlGo (ls.getLastD []) [] ls := by
  unfold create_document_list
  simpa using cdl_foldl_eq_go (ls.getLastD []) ls [] []

/-- A nonempty list's `getLast?` is its `getLastD`. -/
theorem getLast?_cons_eq_getLastD (a : Str) (l : List Str) :
    (a :: l).getLast? = some ((a :: l).getLastD []) := by
  induction l generalizing a with
  | nil => rfl
  | cons b t ih => rw [List.getLast?_cons_cons, ih b]; rfl

/-- When every non-final line that compares equal to the final line is the
blank line, the value-equality flush of the source coincides with the
last-position flush of the claim. -/
theorem cdlGo_eq_specFlushGo :
    ∀ (ls : List Str) (last : Str) (buf : List Str),
      ls.getLast? = some last →
      (∀ l ∈ ls.dropLast, l = last → l = ['\n']) →
      cdlGo last buf ls = specFlushGo buf ls := by
  intro ls
  induction ls with
  | nil => intro last buf h; simp at h
  | cons l rest ih =>
    intro last buf hlast hdrop
    cases rest with
    | nil =>
      have hl : l = last := by simpa using hlast
      simp [cdlGo, specFlushGo, Or.inr hl]
    | cons l2 rest' =>
      rw [List.getLast?_cons_cons] at hlast
      have hdrop' : ∀ x ∈ (l2 :: rest').dropLast, x = last → x = ['\n'] := by
        intro x hx
        exact hdrop x (by rw [List.dropLast_cons₂]; exact List.mem_cons_of_mem l hx)
      have hl : l = last → l = ['\n'] := by
        intro hx
        exact hdrop l (by rw [List.dropLast_cons₂]; exact List.mem_cons_self l _) hx
      by_cases hnl : l = ['\n']
      · have hcond : l = ['\n'] ∨ l = last := Or.inl hnl
        have hih := ih last [] hlast hdrop'
        simp only [cdlGo, specFlushGo, if_pos hcond, if_pos hnl]
        rw [← hih]
        simp only [cdlGo]
      · have hne : ¬(l = ['\n'] ∨ l = last) := by
          rintro (h | h)
          · exact hnl h
          · exact hnl (hl h)
        have hih := ih last (buf ++ [pyRstrip l]) hlast hdrop'
        simp only [cdlGo, specFlushGo, if_neg hne, if_neg hnl]
        rw [← hih]
        simp only [cdlGo]

/-- Claim C1 (amended): the segmenter flushes at a line precisely when that
line is the blank line `"\n"` or its VALUE equals the value of the file's
last line (which always includes the last position itself); hence it
produces one `Document` per blank-line-delimited block — as the original
claim states — exactly on files in which no non-final line duplicates the
final line's content.  Under that proviso, `create_document_list` coincides
with the claim's last-position segmenter `claimCreateDocumentList`. -/
theorem create_document_list_eq_claim_of_no_dup (lines : List Str)
    (h : ∀ l ∈ lines.dropLast, l = lines.getLastD [] → l = ['\n']) :
    create_document_list lines = claimCreateDocumentList lines := by
  cases lines with
  | nil => rfl
  | cons l rest =>
    rw [create_document_list_eq_cdlGo]
    exact cdlGo_eq_specFlushGo (l :: rest) ((l :: rest).getLastD []) []
      (getLast?_cons_eq_getLastD l rest) h

/-- Witness for `create_document_list_eq_claim_of_no_dup` on the concrete
file `"x\n" "\n" "y\n"`. -/
theorem create_document_list_eq_claim_witness :
    (∀ l ∈ ([sOf "x\n", sOf "\n", sOf "y\n"] : List Str).dropLast,
        l = ([sOf "x\n", sOf "\n", sOf "y\n"] : List Str).getLastD [] → l = ['\n'])
    ∧ create_document_list [sOf "x\n", sOf "\n", sOf "y\n"]
        = claimCreateDocumentList [sOf "x\n", sOf "\n", sOf "y\n"] :=
  ⟨by decide, create_document_list_eq_claim_of_no_dup _ (by decide)⟩

/-- Counterexample to claim C1 as stated: in the file `"a\n" "b\n" "a\n"`
there are no blank lines, so the claim's boundary rule yields exactly one
document, but the source's value-equality test also fires at the FIRST
line (its value equals the last line's value), yielding two documents. -/
theorem create_document_list_boundary_counterexample :
    create_document_list [sOf "a\n", sOf "b\n", sOf "a\n"]
        ≠ claimCreateDocumentList [sOf "a\n", sOf "b\n", sOf "a\n"]
    ∧ (create_document_list [sOf "a\n", sOf "b\n", sOf "a\n"]).length = 2
    ∧ (claimCreateDocumentList [sOf "a\n", sOf "b\n", sOf "a\n"]).length = 1 := by
  refine ⟨by decide, by decide, by decide⟩

/-! ### Claim C10: trailing space in flushed document bodies -/

/-- The space-join of a buffer tail ending in piece `r` (itself free of
trailing whitespace) ends in a space character precisely when `r` is empty
and some piece precedes it. -/
theorem joinSpace_getLast?_space (mid : List Str) (r : Str)
    (hr : ∀ c, r.getLast? = some c → isPySpace c = false) :
    (joinSpace (mid ++ [r])).getLast? = some ' ' ↔ (mid ≠ [] ∧ r = []) := by
  cases mid with
  | nil =>
    simp only [List.nil_append, joinSpace, pyJoin]
    constructor
    · intro hc
      have := hr ' ' hc
      simp [isPySpace] at this
    · rintro ⟨hne, _⟩
      exact absurd rfl hne
  | cons m ms =>
    rw [joinSpace, pyJoin_append_last ' ' (m :: ms) r (by simp)]
    rw [List.getLast?_append_of_ne_nil _ (by simp)]
    by_cases hr0 : r = []
    · subst hr0
      simp [joinSpace]
    · have hcc : (' ' :: r).getLast? = r.getLast? := by
        cases r with
        | nil => exact absurd rfl hr0
        | cons c r' => exact List.getLast?_cons_cons
      rw [hcc]
      constructor
      · intro hc
        have := hr ' ' hc
        simp [isPySpace] at this
      · rintro ⟨_, h0⟩
        exact absurd h0 hr0

/-- Claim C10 (amended): the boundary line is appended right-trimmed to the
buffer before the flush, so a document flushed at a blank line with at
least one non-header line before it has a body ending in a space (the
blank line joins as the empty string); a document flushed at the end of
the file ends in a space precisely when the final line right-trims to the
empty string (e.g. a whitespace-only final line) and a non-header line
precedes it — in particular, when the final line right-trims to a
non-empty string, there is no trailing space. -/
theorem create_document_trailing_space_iff (h : Str) (mid : List Str) (l : Str) :
    (mid ≠ [] →
      ((create_document (h :: (mid ++ [pyRstrip (sOf "\n")]))).body).getLast? = some ' ')
    ∧ (((create_document (h :: (mid ++ [pyRstrip l]))).body).getLast? = some ' '
        ↔ (mid ≠ [] ∧ pyRstrip l = [])) := by
  constructor
  · intro hm
    simp only [create_document]
    exact (joinSpace_getLast?_space mid (pyRstrip (sOf "\n"))
      (fun c hc => pyRstrip_getLast?_not_space hc)).mpr ⟨hm, by decide⟩
  · simp only [create_document]
    exact joinSpace_getLast?_space mid (pyRstrip l)
      (fun c hc => pyRstrip_getLast?_not_space hc)

/-- Witness for `create_document_trailing_space_iff`: the buffer
`["h", "a", ""]` of a blank-line flush yields the body `"a "`. -/
theorem create_document_trailing_space_witness :
    ((create_document (sOf "h" :: ([sOf "a"] ++ [pyRstrip (sOf "\n")]))).body).getLast?
      = some ' ' :=
  (create_document_trailing_space_iff (sOf "h") [sOf "a"] (sOf "\n")).1 (by decide)

/-- Counterexample to claim C10 as stated: the file `"h\n" "a\n" " \n"` has
no blank line, so its single document is flushed only at the end of the
file, yet its body is `"a "` — the whitespace-only final line right-trims
to the empty string and joins as one, leaving a trailing space. -/
theorem create_document_eof_trailing_space_counterexample :
    create_document_list [sOf "h\n", sOf "a\n", sOf " \n"]
      = [⟨sOf "h", sOf "a "⟩]
    ∧ ((create_document_list [sOf "h\n", sOf "a\n", sOf " \n"]).headD
        ⟨[], []⟩).body.getLast? = some ' ' := by
  refine ⟨by decide, by decide⟩

/-! ### Claim C3: undecodable files and the dead diagnostic branch -/

/-- Claim C3 (amended): a file decodable by neither encoding terminates the
process with a non-zero exit code, but via an UNCAUGHT exception — the
`except` clause that would print the diagnostic is dead (a
`UnicodeDecodeError` raised inside the first handler is not caught by its
sibling clause, and the `finally` block then raises `NameError` on the
unbound `lines`) — so the `Could not convert file` diagnostic is never
printed on any path; a file decodable by UTF-8, or by the cp1252 fallback,
passes the read phase with its decoded lines and exit code 0. -/
theorem mainReadPhase_outcomes (u c : Option (List Str)) :
    (u = none → c = none →
      mainReadPhase u c = ReadOutcome.uncaught
        ∧ readExit (mainReadPhase u c) = 1
        ∧ printsDiag (mainReadPhase u c) = false)
    ∧ (∀ l, u = some l → mainReadPhase u c = ReadOutcome.ok l)
    ∧ (∀ l, u = none → c = some l → mainReadPhase u c = ReadOutcome.ok l)
    ∧ (∀ l, mainReadPhase u c = ReadOutcome.ok l → readExit (mainReadPhase u c) = 0)
    ∧ printsDiag (mainReadPhase u c) = false := by
  cases u <;> cases c <;> simp [mainReadPhase, readExit, printsDiag]

/-- Witness for `mainReadPhase_outcomes` at a doubly undecodable file. -/
theorem mainReadPhase_outcomes_witness :
    readExit (mainReadPhase none none) = 1
      ∧ printsDiag (mainReadPhase none none) = false :=
  ⟨((mainReadPhase_outcomes none none).1 rfl rfl).2.1,
   ((mainReadPhase_outcomes none none).1 rfl rfl).2.2⟩

/-- Counterexample to claim C3 as stated: on a file decodable by neither
encoding, the read phase ends in an uncaught exception, not in the
diagnostic-and-`sys.exit(1)` branch the claim describes, and no diagnostic
line is printed. -/
theorem mainReadPhase_no_diag_counterexample :
    mainReadPhase none none = ReadOutcome.uncaught
    ∧ printsDiag (mainReadPhase none none) = false
    ∧ mainReadPhase none none ≠ ReadOutcome.diag := by
  refine ⟨rfl, rfl, by decide⟩

/-! ### Claim C8: file-handle release discipline -/

/-- Claim C8 (amended): on the primary (UTF-8) path the single handle is
closed before segmentation; on the fallback path only the handle opened by
the `except` handler is explicitly closed (still before segmentation) —
the handle of the failed UTF-8 attempt is rebound away WITHOUT a close and
is never explicitly released; no close ever happens after segmentation has
begun. -/
theorem mainTrace_close_discipline (u c : Bool) :
    (u = true →
      FileEv.openF 0 ∈ mainTrace u c ∧ FileEv.closeF 0 ∈ mainTrace u c
        ∧ FileEv.openF 1 ∉ mainTrace u c)
    ∧ (u = false →
      FileEv.openF 0 ∈ mainTrace u c ∧ FileEv.openF 1 ∈ mainTrace u c
        ∧ FileEv.closeF 1 ∈ mainTrace u c ∧ FileEv.closeF 0 ∉ mainTrace u c)
    ∧ noCloseAfterSeg (mainTrace u c) = true := by
  cases u <;> cases c <;> decide

/-- Witness for `mainTrace_close_discipline` on the primary path. -/
theorem mainTrace_close_discipline_witness :
    FileEv.closeF 0 ∈ mainTrace true true :=
  ((mainTrace_close_discipline true true).1 rfl).2.1

/-- Counterexample to claim C8 as stated: on the fallback path (UTF-8
decoding fails, cp1252 succeeds) the first handle is opened but never
closed. -/
theorem mainTrace_fallback_leak_counterexample :
    FileEv.openF 0 ∈ mainTrace false true
      ∧ FileEv.closeF 0 ∉ mainTrace false true := by
  refine ⟨by decide, by decide⟩

/-! ### Claim C7: print_header on malformed filenames -/

/-- Claim C7 (amended): `print_header` completes without error precisely
when splitting the filename's first 10 characters on `'_'` yields at least
three parts (i.e. those characters contain at least two underscores), in
which case it silently emits a tag built from the mis-parsed values; for
filenames with fewer parts — e.g. `"short.txt"` — the accesses
`date_list[1]` / `date_list[2]` raise an `IndexError` instead of
completing. -/
theorem print_header_isSome_iff (filename : Str) :
    (print_header filename).isSome
      ↔ 3 ≤ (pySplit '_' (List.take 10 filename)).length := by
  unfold print_header
  rcases h1 : (pySplit '_' (List.take 10 filename))[1]? with _ | m
  · have hle : (pySplit '_' (List.take 10 filename)).length ≤ 1 :=
      List.getElem?_eq_none_iff.mp h1
    simp [h1]
    omega
  · rcases h2 : (pySplit '_' (List.take 10 filename))[2]? with _ | d
    · have hle : (pySplit '_' (List.take 10 filename)).length ≤ 2 :=
        List.getElem?_eq_none_iff.mp h2
      simp [h1, h2]
      omega
    · have hlt : 2 < (pySplit '_' (List.take 10 filename)).length :=
        (List.getElem?_eq_some_iff.mp h2).1
      simp [h1, h2]
      omega

/-- Counterexample to claim C7 as stated: the filename `"short.txt"` has no
underscore among its first 10 characters, and `print_header` raises an
`IndexError` (modelled by `none`) rather than completing with a tag. -/
theorem print_header_short_filename_counterexample :
    print_header (sOf "short.txt") = none
    ∧ (pySplit '_' (List.take 10 (sOf "short.txt"))).length = 1 := by
  refine ⟨by decide, by decide⟩

/-! ### Claim C4: print_header on well-formed filenames -/

/-- Replacement unfolds over a cons cell. -/
theorem pyReplace1_cons (c : Char) (s : Str) (old : Char) (new : Str) :
    pyReplace1 (c :: s) old new
      = (if c = old then new else [c]) ++ pyReplace1 s old new := by
  simp [pyReplace1]

/-- Claim C4: for a filename `YYYY_MM_DD_<slug>.txt` (year, month, day all
digits of lengths 4, 2, 2), `print_header` succeeds and emits the tag whose
`year`, `month`, `day` attributes are exactly the filename substrings,
whose `date` is their `'_'`-joined concatenation, and whose `id` is the
filename stripped of its trailing 4 characters with every `'-'` replaced by
`'_'`; in particular the emitted `id` contains no `'-'`. -/
theorem print_header_wellformed_filename (y m d slug : Str)
    (hy : y.length = 4) (hm : m.length = 2) (hd : d.length = 2)
    (hyd : ∀ c ∈ y, c.isDigit) (hmd : ∀ c ∈ m, c.isDigit)
    (hdd : ∀ c ∈ d, c.isDigit) :
    print_header (y ++ '_' :: m ++ '_' :: d ++ '_' :: slug ++ sOf ".txt")
      = some (sOf "<text "
          ++ (sOf "id=\"" ++ (y ++ '_' :: m ++ '_' :: d ++ '_' :: pyReplace1 slug '-' ['_']) ++ ['"'])
          ++ ' ' :: (sOf "date=\"" ++ (y ++ '_' :: m ++ '_' :: d) ++ ['"'])
          ++ ' ' :: (sOf "year=\"" ++ y ++ ['"'])
          ++ ' ' :: (sOf "month=\"" ++ m ++ ['"'])
          ++ ' ' :: (sOf "day=\"" ++ d ++ ['"']) ++ ['>'])
    ∧ '-' ∉ (y ++ '_' :: m ++ '_' :: d ++ '_' :: pyReplace1 slug '-' ['_']) := by
  have hu1 : '_' ∉ y := under_not_mem_digits hyd
  have hu2 : '_' ∉ m := under_not_mem_digits hmd
  have hu3 : '_' ∉ d := under_not_mem_digits hdd
  have hd1 : '-' ∉ y := dash_not_mem_digits hyd
  have hd2 : '-' ∉ m := dash_not_mem_digits hmd
  have hd3 : '-' ∉ d := dash_not_mem_digits hdd
  have hF : y ++ '_' :: m ++ '_' :: d ++ '_' :: slug ++ sOf ".txt"
      = (y ++ '_' :: m ++ '_' :: d) ++ ('_' :: slug ++ sOf ".txt") := by simp
  have hlenA : (y ++ '_' :: m ++ '_' :: d).length = 10 := by
    simp [hy, hm, hd]
  have htake : List.take 10 (y ++ '_' :: m ++ '_' :: d ++ '_' :: slug ++ sOf ".txt")
      = y ++ '_' :: m ++ '_' :: d := by
    rw [hF, ← hlenA, List.take_left]
  have hgrp : (y ++ '_' :: m) ++ '_' :: d = y ++ '_' :: (m ++ '_' :: d) := by simp
  have hsplitF : pySplit '_' (List.take 10 (y ++ '_' :: m ++ '_' :: d ++ '_' :: slug ++ sOf ".txt"))
      = [y, m, d] := by
    rw [htake, hgrp, pySplit_append_sep (m ++ '_' :: d) hu1,
      pySplit_append_sep d hu2, pySplit_no_sep hu3]
  have hext : (sOf ".txt").length = 4 := by decide
  have htakeStem :
      List.take ((y ++ '_' :: m ++ '_' :: d ++ '_' :: slug ++ sOf ".txt").length - 4)
          (y ++ '_' :: m ++ '_' :: d ++ '_' :: slug ++ sOf ".txt")
        = y ++ '_' :: m ++ '_' :: d ++ '_' :: slug := by
    have h4 : (y ++ '_' :: m ++ '_' :: d ++ '_' :: slug ++ sOf ".txt").length - 4
        = (y ++ '_' :: m ++ '_' :: d ++ '_' :: slug).length := by
      rw [List.length_append, hext]
      omega
    rw [h4, List.take_left]
  have hrep : pyReplace1 (y ++ '_' :: m ++ '_' :: d ++ '_' :: slug) '-' ['_']
      = y ++ '_' :: m ++ '_' :: d ++ '_' :: pyReplace1 slug '-' ['_'] := by
    simp only [pyReplace1_append, pyReplace1_cons,
      if_neg (show ('_' : Char) ≠ '-' by decide),
      pyReplace1_of_not_mem hd1, pyReplace1_of_not_mem hd2,
      pyReplace1_of_not_mem hd3]
    simp
  have hjoin : pyJoin '_' [y, m, d] = y ++ '_' :: m ++ '_' :: d := by
    simp [pyJoin]
  constructor
  · unfold print_header
    rw [hsplitF, htakeStem]
    dsimp only
    rw [hrep, hjoin]
    rfl
  · intro hmem
    rcases List.mem_append.mp hmem with h | h
    · rcases List.mem_append.mp h with h | h
      · rcases List.mem_append.mp h with h | h
        · exact hd1 h
        · rcases List.mem_cons.mp h with h | h
          · exact absurd h (by decide)
          · exact hd2 h
      · rcases List.mem_cons.mp h with h | h
        · exact absurd h (by decide)
        · exact hd3 h
    · rcases List.mem_cons.mp h with h | h
      · exact absurd h (by decide)
      · exact not_mem_pyReplace1 (by decide) slug h

/-- Witness for `print_header_wellformed_filename` at the scenario filename
`2017_11_03_example-text.txt`. -/
theorem print_header_wellformed_filename_witness :
    print_header (sOf "2017" ++ '_' :: sOf "11" ++ '_' :: sOf "03"
        ++ '_' :: sOf "example-text" ++ sOf ".txt")
      = some exampleHeaderTag := by
  have h := print_header_wellformed_filename (sOf "2017") (sOf "11") (sOf "03")
    (sOf "example-text") (by decide) (by decide) (by decide) (by decide)
    (by decide) (by decide)
  exact h.1.trans (by decide)

/-! ### Claim C5: structure of the emitter's output -/

/-- A token line splits on tab into exactly the three fields, provided the
fields themselves are tab-free. -/
theorem pySplit_formatToken (t : Token) (h1 : '\t' ∉ t.text)
    (h2 : '\t' ∉ t.pos_) (h3 : '\t' ∉ t.lemma_) :
    pySplit '\t' (formatToken t) = [t.text, t.pos_, t.lemma_] := by
  have hgrp : formatToken t = t.text ++ '\t' :: (t.pos_ ++ '\t' :: t.lemma_) := by
    simp [formatToken]
  rw [hgrp, pySplit_append_sep _ h1, pySplit_append_sep _ h2, pySplit_no_sep h3]

/-- Claim C5: for every text and tag, the emitter prints, per sentence, the
open tag, then one line per token of the per-sentence re-analysis — each
line carrying exactly the three tab-separated fields surface form,
part-of-speech tag and lemma (provided the collaborator's fields are
tab-free) — then the close tag obtained from the open tag by replacing
`'<'` with `"</"`; it prints nothing else (in particular `"<h1>"` yields
`"</h1>"` and `"<s>"` yields `"</s>"`). -/
theorem print_cwb_structure (P : Pipeline) (document tag : Str)
    (hno : ∀ s ∈ (P.nlp document).sents, ∀ t ∈ (P.nlp s.text).toks,
      '\t' ∉ t.text ∧ '\t' ∉ t.pos_ ∧ '\t' ∉ t.lemma_) :
    print_cwb P document tag
      = (P.nlp document).sents.flatMap (fun s =>
          tag :: ((P.nlp s.text).toks.map formatToken
            ++ [pyReplace1 tag '<' (sOf "</")]))
    ∧ (∀ s ∈ (P.nlp document).sents, ∀ t ∈ (P.nlp s.text).toks,
        pySplit '\t' (formatToken t) = [t.text, t.pos_, t.lemma_])
    ∧ pyReplace1 (sOf "<h1>") '<' (sOf "</") = sOf "</h1>"
    ∧ pyReplace1 (sOf "<s>") '<' (sOf "</") = sOf "</s>" := by
  refine ⟨rfl, ?_, by decide, by decide⟩
  intro s hs t ht
  obtain ⟨a, b, c⟩ := hno s hs t ht
  exact pySplit_formatToken t a b c

/-- Witness for `print_cwb_structure` at the stand-in pipeline on the text
`"Headline Text"` under the `<h1>` tag. -/
theorem print_cwb_structure_witness :
    (∀ s ∈ (demoPipeline.nlp (sOf "Headline Text")).sents,
        ∀ t ∈ (demoPipeline.nlp s.text).toks,
          '\t' ∉ t.text ∧ '\t' ∉ t.pos_ ∧ '\t' ∉ t.lemma_)
    ∧ (print_cwb demoPipeline (sOf "Headline Text") (sOf "<h1>")
        = (demoPipeline.nlp (sOf "Headline Text")).sents.flatMap (fun s =>
            sOf "<h1>" :: ((demoPipeline.nlp s.text).toks.map formatToken
              ++ [pyReplace1 (sOf "<h1>") '<' (sOf "</")]))
      ∧ (∀ s ∈ (demoPipeline.nlp (sOf "Headline Text")).sents,
          ∀ t ∈ (demoPipeline.nlp s.text).toks,
            pySplit '\t' (formatToken t) = [t.text, t.pos_, t.lemma_])
      ∧ pyReplace1 (sOf "<h1>") '<' (sOf "</") = sOf "</h1>"
      ∧ pyReplace1 (sOf "<s>") '<' (sOf "</") = sOf "</s>") :=
  ⟨by decide,
   print_cwb_structure demoPipeline (sOf "Headline Text") (sOf "<h1>") (by decide)⟩

/-! ### Claim C6: the second analysis pass supplies the printed tokens -/

/-- Erases the first-pass token objects carried by sentence spans, leaving
sentence texts and document-level analyses untouched. -/
def scrubSentToks (P : Pipeline) : Pipeline :=
  ⟨fun s => ⟨(P.nlp s).toks, (P.nlp s).sents.map (fun se => ⟨se.text, []⟩)⟩⟩

/-- Claim C6: the printed token lines come from a second pipeline invocation
on each sentence's text, not from the sentence's own first-pass token
objects: erasing every sentence-level token object leaves `print_cwb`'s
output unchanged for every pipeline, text and tag, while on the stand-in
pipeline (whose sentence spans carry token lists differing from the fresh
re-analysis) the output differs from the reuse variant
`specPrintCwbReuse`. -/
theorem print_cwb_second_pass :
    (∀ (P : Pipeline) (document tag : Str),
      print_cwb (scrubSentToks P) document tag = print_cwb P document tag)
    ∧ print_cwb demoPipeline (sOf "Headline Text") (sOf "<s>")
        ≠ specPrintCwbReuse demoPipeline (sOf "Headline Text") (sOf "<s>") := by
  constructor
  · intro P document tag
    simp only [print_cwb, scrubSentToks, List.flatMap_map]
  · decide

/-! ### Claim C9: output determined by basename and decoded content -/

/-- Claim C9: the converter's standard output is a deterministic function of
the pipeline, the decoded file content and the input path's basename — two
runs on the same file (equal decode results, paths with equal basenames)
produce identical output streams. -/
theorem mainStdout_deterministic (P : Pipeline) (in1 in2 : Str)
    (u c : Option (List Str)) (hf : filenameOf in1 = filenameOf in2) :
    mainStdout P in1 u c = mainStdout P in2 u c := by
  unfold mainStdout
  cases hR : mainReadPhase u c <;> simp [hf]

/-- Witness for `mainStdout_deterministic`: the same file reached through
two different directories. -/
theorem mainStdout_deterministic_witness :
    filenameOf (sOf "a/2017_11_03_x.txt") = filenameOf (sOf "b/2017_11_03_x.txt")
    ∧ mainStdout demoPipeline (sOf "a/2017_11_03_x.txt") (some [sOf "hi\n"]) none
        = mainStdout demoPipeline (sOf "b/2017_11_03_x.txt") (some [sOf "hi\n"]) none :=
  ⟨by decide, mainStdout_deterministic demoPipeline _ _ _ _ (by decide)⟩

/-! ### Claim C2: the scenario file 2017_11_03_example-text.txt -/

/-- Claim C2 (amended): for the scenario file — a headline line, a blank
line, and a body line — the segmenter treats the blank line as a DOCUMENT
separator, so the program emits exactly TWO `<text>...</text>` blocks, both
opened by the expected header tag: the first holds the tokens of
`"Headline Text"` under `<h1>` and nothing else (its body is empty, so no
`<s>` block appears), and the second holds the body's two sentences each
under `<h1>` (the body line became the second document's header), again
with no `<s>` block. -/
theorem mainStdout_example_two_text_blocks (P : Pipeline) (cp : Option (List Str))
    (ts0 ts1 ts2 hts bts1 bts2 : List Token)
    (hE : (P.nlp []).sents = [])
    (hH : (P.nlp (sOf "Headline Text")).sents = [⟨sOf "Headline Text", ts0⟩])
    (hHt : (P.nlp (sOf "Headline Text")).toks = hts)
    (hB : (P.nlp (sOf "Body line one. Body line two.")).sents
        = [⟨sOf "Body line one.", ts1⟩, ⟨sOf "Body line two.", ts2⟩])
    (hB1 : (P.nlp (sOf "Body line one.")).toks = bts1)
    (hB2 : (P.nlp (sOf "Body line two.")).toks = bts2) :
    mainStdout P (sOf "2017_11_03_example-text.txt") (some exampleLines) cp
      = [exampleHeaderTag, sOf "<h1>"] ++ hts.map formatToken
        ++ [sOf "</h1>", sOf "</text>", exampleHeaderTag, sOf "<h1>"]
        ++ bts1.map formatToken ++ [sOf "</h1>", sOf "<h1>"]
        ++ bts2.map formatToken ++ [sOf "</h1>", sOf "</text>"] := by
  have hdocs : create_document_list exampleLines
      = [⟨sOf "Headline Text", []⟩, ⟨sOf "Body line one. Body line two.", []⟩] := by
    decide
  have hhdr : print_header (filenameOf (sOf "2017_11_03_example-text.txt"))
      = some exampleHeaderTag := by decide
  have hclose : pyReplace1 (sOf "<h1>") '<' (sOf "</") = sOf "</h1>" := by decide
  have hcwb1 : print_cwb P (sOf "Headline Text") (sOf "<h1>")
      = sOf "<h1>" :: (hts.map formatToken ++ [sOf "</h1>"]) := by
    unfold print_cwb
    rw [hH]
    simp [hHt, hclose]
  have hcwbE : print_cwb P [] (sOf "<s>") = [] := by
    unfold print_cwb
    rw [hE]
    rfl
  have hcwbB : print_cwb P (sOf "Body line one. Body line two.") (sOf "<h1>")
      = sOf "<h1>" :: (bts1.map formatToken ++ [sOf "</h1>"])
        ++ sOf "<h1>" :: (bts2.map formatToken ++ [sOf "</h1>"]) := by
    unfold print_cwb
    rw [hB]
    simp [hB1, hB2, hclose]
  unfold mainStdout mainReadPhase emitDocuments
  dsimp only
  rw [hdocs]
  simp only [emitDocs, hhdr]
  rw [hcwb1, hcwbE, hcwbB]
  simp [print_footer]

/-- Witness for `mainStdout_example_two_text_blocks` at the stand-in
pipeline. -/
theorem mainStdout_example_two_text_blocks_witness :
    mainStdout demoPipeline (sOf "2017_11_03_example-text.txt") (some exampleLines) none
      = [exampleHeaderTag, sOf "<h1>"] ++ demoHeadlineToks.map formatToken
        ++ [sOf "</h1>", sOf "</text>", exampleHeaderTag, sOf "<h1>"]
        ++ demoBodyOneToks.map formatToken ++ [sOf "</h1>", sOf "<h1>"]
        ++ demoBodyTwoToks.map formatToken ++ [sOf "</h1>", sOf "</text>"] :=
  mainStdout_example_two_text_blocks demoPipeline none [] [] []
    demoHeadlineToks demoBodyOneToks demoBodyTwoToks
    (by decide) (by decide) (by decide) (by decide) (by decide) (by decide)

/-- Counterexample to claim C2 as stated: on the scenario file the program
emits two `</text>` lines, not one — the blank line separates the headline
and the body into two documents. -/
theorem mainStdout_example_block_count_counterexample :
    ¬ ((mainStdout demoPipeline (sOf "2017_11_03_example-text.txt")
        (some exampleLines) none).count (sOf "</text>") = 1)
    ∧ (mainStdout demoPipeline (sOf "2017_11_03_example-text.txt")
        (some exampleLines) none).count (sOf "</text>") = 2 := by
  refine ⟨by decide, by decide⟩
